import Mathlib

/-!
Verification of the attribute-based access control (ABAC) layer of the
llama-stack repository: the SQL pre-filter / in-memory policy evaluator
pipeline of `sqlalchemy_sqlstore.py`, and the two route-guard policy
evaluators (`access_control/decorator.py` and `server/access_control.py`).

Definitions are a shallow embedding of the Python source.  The policy
evaluator (`is_action_allowed`), the condition grammar (`parse_condition`
and the condition classes) and `default_policy` live in repository files
that are not part of the source snapshot, so those definitions are
modelled from the specification; each such definition says so in its doc
comment.  Everything else is translated directly from the source files.
-/

namespace LlamaStack

/-- `User` from `llama_stack/distribution/user.py`: a principal together
with optional access-control attributes (a mapping from attribute
category to a list of values, modelled as an association list). -/
structure User where
  principal : String
  attributes : Option (List (String × List String))
deriving DecidableEq

/-- Modelled from the spec: `Action` is the enumerated operation a rule
can permit (READ, CREATE, UPDATE, DELETE); the enum itself lives in
`access_control/datatypes.py`, which is not in the source snapshot. -/
inductive Action where
  | create
  | read
  | update
  | delete
deriving DecidableEq

/-- Modelled from the spec: `Scope` is the action set a rule applies to
(`access_control/datatypes.py` is not in the source snapshot). -/
structure Scope where
  actions : List Action
deriving DecidableEq

/-- Modelled from the spec: `AccessRule` is a permit scope guarded by a
list of condition strings, all of which must hold for the rule to apply
(`access_control/datatypes.py` is not in the source snapshot). -/
structure AccessRule where
  permit : Scope
  whenConds : List String
deriving DecidableEq

/-- `ProtectedResource` as used by the evaluator and by `SqlRecord`:
a typed, identified resource with an owner. -/
structure ProtectedResource where
  resourceType : String
  identifier : String
  owner : User
deriving DecidableEq

/-- The list of all actions, in enum declaration order; `list(Action)`
in the Python source. -/
def allActions : List Action :=
  [Action.create, Action.read, Action.update, Action.delete]

/-- `SQL_OPTIMIZED_POLICY` from `sqlalchemy_sqlstore.py`: the hardcoded
copy of the default policy that the SQL filtering implements.  One rule:
permit all actions when the user is in the owners list for each of
roles, teams, projects and namespaces. -/
def SQL_OPTIMIZED_POLICY : List AccessRule :=
  [{ permit := { actions := allActions },
     whenConds := ["user in owners roles", "user in owners teams",
                   "user in owners projects", "user in owners namespaces"] }]

/-- Modelled from the spec: `default_policy()` from
`access_control/access_control.py` (not in the source snapshot) is the
hardcoded single rule that permits all actions when the user is a member
of the resource owner values for each category the resource specifies;
by the startup validation in the source it has the same value as
`SQL_OPTIMIZED_POLICY`. -/
def default_policy : List AccessRule := SQL_OPTIMIZED_POLICY

/-- Modelled from the spec: the typed condition AST produced by
`parse_condition` in `access_control/conditions.py` (not in the source
snapshot).  Two primitive forms are used by the route guards, the
owners-based forms by the default resource policy, and the owner
identity forms exist but are unsupported by the route guards. -/
inductive Condition where
  | userWithValueIn (value attr : String)
  | userWithValueNotIn (value attr : String)
  | userInOwners (attr : String)
  | userNotInOwners (attr : String)
  | userIsOwner
  | userIsNotOwner
deriving DecidableEq

/-- Split a character list at spaces (the helper of `splitWords`). -/
def splitAux (cur : List Char) : List Char → List (List Char)
  | [] => [cur.reverse]
  | c :: rest => if c = ' ' then cur.reverse :: splitAux [] rest else splitAux (c :: cur) rest

/-- Split a string into its space-separated words (the behaviour of
splitting on a single space, written as a structural recursion so that
it evaluates inside proofs). -/
def splitWords (s : String) : List String :=
  (splitAux [] s.data).map (fun l => String.mk l)

/-- Modelled from the spec: `parse_condition` from
`access_control/conditions.py` (not in the source snapshot).  Condition
strings are word sequences such as "user with VALUE in ATTRIBUTE";
anything that fits no recognised shape fails to parse (the Python code
raises ValueError, modelled as `none`). -/
def parse_condition (s : String) : Option Condition :=
  match splitWords s with
  | ["user", "with", v, "in", a] => some (Condition.userWithValueIn v a)
  | ["user", "with", v, "not", "in", a] => some (Condition.userWithValueNotIn v a)
  | ["user", "in", "owners", a] => some (Condition.userInOwners a)
  | ["user", "not", "in", "owners", a] => some (Condition.userNotInOwners a)
  | ["user", "is", "owner"] => some Condition.userIsOwner
  | ["user", "is", "not", "owner"] => some Condition.userIsNotOwner
  | _ => none

/-- Association-list lookup for attribute mappings (Python dict `.get`). -/
def lookupAttr (attrs : List (String × List String)) (key : String) : Option (List String) :=
  match attrs with
  | [] => none
  | p :: rest => if p.1 = key then some p.2 else lookupAttr rest key

/-- Modelled from the spec: the `UserWithValueInList` condition holds
when the user has the given value in the given attribute category; a
user with no attributes or without the category cannot match. -/
def userHasValueIn (user : User) (value attr : String) : Bool :=
  match user.attributes with
  | none => false
  | some attrs =>
    match lookupAttr attrs attr with
    | none => false
    | some vs => vs.contains value

/-- Modelled from the spec: the owners-based condition used by the
default policy.  If the resource owner lacks the category (or has it
empty) the condition is unrestricted (true); otherwise the user must
hold at least one of the owner values for that category. -/
def ownersCondHolds (owner : User) (user : User) (attr : String) : Bool :=
  match owner.attributes with
  | none => true
  | some oattrs =>
    match lookupAttr oattrs attr with
    | none => true
    | some ovs =>
      if ovs.isEmpty then true
      else
        match user.attributes with
        | none => false
        | some uattrs =>
          match lookupAttr uattrs attr with
          | none => false
          | some uvs => uvs.any (fun v => ovs.contains v)

/-- Modelled from the spec: evaluation of a parsed condition against a
resource and a requesting user (`Condition.matches` in
`access_control/conditions.py`, not in the source snapshot). -/
def conditionMatches (c : Condition) (res : ProtectedResource) (user : User) : Bool :=
  match c with
  | Condition.userWithValueIn v a => userHasValueIn user v a
  | Condition.userWithValueNotIn v a => !(userHasValueIn user v a)
  | Condition.userInOwners a => ownersCondHolds res.owner user a
  | Condition.userNotInOwners a => !(ownersCondHolds res.owner user a)
  | Condition.userIsOwner => res.owner.principal = user.principal
  | Condition.userIsNotOwner => !(res.owner.principal = user.principal : Bool)

/-- An owner is public when it has no attributes or an empty attribute
mapping (null/empty owner-attributes in the spec). -/
def isPublicOwner (owner : User) : Bool :=
  match owner.attributes with
  | none => true
  | some l => l.isEmpty

/-- A rule applies when the action is in its permit scope and every
condition string in its guard parses and evaluates to true (an
unparseable condition never grants access: fail closed). -/
def ruleApplies (rule : AccessRule) (action : Action) (res : ProtectedResource) (user : User) : Bool :=
  rule.permit.actions.contains action &&
  rule.whenConds.all (fun s =>
    match parse_condition s with
    | some c => conditionMatches c res user
    | none => false)

/-- Modelled from the spec: `is_action_allowed` from
`access_control/access_control.py` (not in the source snapshot).  An
empty policy defaults to the default policy (noted in the source of
`_build_access_control_where_clause`); a resource with null/empty
owner-attributes is always readable (public); a null user cannot
satisfy any attribute-based rule; otherwise the first applying permit
rule decides and a policy with no applying rule denies. -/
def is_action_allowed (policy : List AccessRule) (action : Action)
    (res : ProtectedResource) (user : Option User) : Bool :=
  let policy := if policy.isEmpty then default_policy else policy
  if isPublicOwner res.owner then true
  else
    match user with
    | none => false
    | some u => policy.any (fun r => ruleApplies r action res u)

/-!
The SQL side.  The `access_attributes` JSON column of a row can be
stored as SQL NULL, as the serialized JSON null, or as a serialized
JSON object mapping categories to arrays of strings; the WHERE clauses
built by the source check all three representations.
-/

/-- Storage representations of the `access_attributes` column. -/
inductive StoredAttr where
  | sqlNull
  | jsonNull
  | obj (attrs : List (String × List String))
deriving DecidableEq

/-- The Python value a fetched row carries for the column: SQL NULL and
JSON null both deserialize to None, an object to a dict. -/
def pyValue (s : StoredAttr) : Option (List (String × List String)) :=
  match s with
  | StoredAttr.sqlNull => none
  | StoredAttr.jsonNull => none
  | StoredAttr.obj l => some l

/-- JSON text escaping for string contents: backslash and double quote
are escaped; other characters are kept as written. -/
def jsonEscape (s : String) : String :=
  String.mk (s.data.foldr
    (fun c acc => if c = '\\' ∨ c = '"' then '\\' :: c :: acc else c :: acc) [])

/-- Serialized JSON text of an array of strings, as SQLite
JSON_EXTRACT renders an array sub-value. -/
def serializeList (l : List String) : String :=
  "[" ++ String.intercalate "," (l.map (fun v => "\"" ++ jsonEscape v ++ "\"")) ++ "]"

/-- Serialized text value of the stored column (`none` for SQL NULL,
which has no text value and compares unequal to every literal). -/
def serializeStored (s : StoredAttr) : Option String :=
  match s with
  | StoredAttr.sqlNull => none
  | StoredAttr.jsonNull => some "null"
  | StoredAttr.obj l =>
    some ("\x7b" ++
      String.intercalate ","
        (l.map (fun p => "\"" ++ jsonEscape p.1 ++ "\":" ++ serializeList p.2)) ++
      "\x7d")

/-- `JSON_EXTRACT(access_attributes, $.key)`: a lookup in a stored
object; NULL for SQL NULL, JSON null, or a missing key. -/
def jsonExtract (s : StoredAttr) (key : String) : Option (List String) :=
  match s with
  | StoredAttr.obj l => lookupAttr l key
  | _ => none

/-- Character-list prefix test (structural, executable). -/
def isPrefixOfChars : List Char → List Char → Bool
  | [], _ => true
  | _ :: _, [] => false
  | a :: as, b :: bs => a == b && isPrefixOfChars as bs

/-- Character-list infix test (structural, executable). -/
def isInfixOfChars (needle : List Char) : List Char → Bool
  | [] => isPrefixOfChars needle []
  | c :: rest => isPrefixOfChars needle (c :: rest) || isInfixOfChars needle rest

/-- ASCII lower-casing of a character list (SQLite `LIKE` folds ASCII
case). -/
def toLowerChars (l : List Char) : List Char :=
  l.map Char.toLower

/-- SQLite `LIKE` with the pattern shape the source always builds,
a percent-wrapped quoted value: case-insensitive (ASCII) substring
containment of the quoted value in the target text. -/
def sqlLike (target : String) (value : String) : Bool :=
  isInfixOfChars (toLowerChars ("\"" ++ value ++ "\"").data) (toLowerChars target.data)

/-- The WHERE-clause fragments the source builds over the
`access_attributes` column, as an AST instead of concatenated SQL text:
NULL test, text-literal equality, JSON_EXTRACT NULL test, JSON_EXTRACT
LIKE containment test, disjunction, conjunction, and the `1=1` fragment. -/
inductive SqlExpr where
  | isNull
  | eqText (lit : String)
  | extractIsNull (key : String)
  | extractLike (key value : String)
  | orE (a b : SqlExpr)
  | andE (a b : SqlExpr)
  | trueLit
  | falseLit
deriving DecidableEq

/-- Evaluation of a WHERE fragment at a stored column value (SQLite
semantics: a comparison with SQL NULL is not true; LIKE against a NULL
extract is not true). -/
def evalSql (e : SqlExpr) (s : StoredAttr) : Bool :=
  match e with
  | SqlExpr.isNull =>
    match s with
    | StoredAttr.sqlNull => true
    | _ => false
  | SqlExpr.eqText lit =>
    match serializeStored s with
    | some t => t = lit
    | none => false
  | SqlExpr.extractIsNull key => (jsonExtract s key).isNone
  | SqlExpr.extractLike key value =>
    match jsonExtract s key with
    | some l => sqlLike (serializeList l) value
    | none => false
  | SqlExpr.orE a b => evalSql a s || evalSql b s
  | SqlExpr.andE a b => evalSql a s && evalSql b s
  | SqlExpr.trueLit => true
  | SqlExpr.falseLit => false

/-- OR-join of a condition list onto a first condition, as the
source's string join over a nonempty list. -/
def joinOr (hd : SqlExpr) (tl : List SqlExpr) : SqlExpr :=
  tl.foldl SqlExpr.orE hd

/-- AND-join of a condition list onto a first condition. -/
def joinAnd (hd : SqlExpr) (tl : List SqlExpr) : SqlExpr :=
  tl.foldl SqlExpr.andE hd

/-- The public-row disjunction that opens every access-control WHERE
clause in the source: `access_attributes IS NULL OR access_attributes =
'null' OR access_attributes = empty-object`. -/
def publicDisjunct : SqlExpr :=
  SqlExpr.orE (SqlExpr.orE SqlExpr.isNull (SqlExpr.eqText "null"))
    (SqlExpr.eqText "\x7b\x7d")

/-- One per-category condition of `_build_default_policy_where_clause`:
skipped when the user has no values for the category, otherwise
`(JSON_EXTRACT IS NULL) OR (LIKE value-1 OR ... OR LIKE value-n)` over
the user values. -/
def categoryCondition (key : String) (userValues : List String) : Option SqlExpr :=
  if userValues.isEmpty then none
  else
    match userValues.map (fun v => SqlExpr.extractLike key v) with
    | [] => none
    | c :: cs => some (SqlExpr.orE (SqlExpr.extractIsNull key) (joinOr c cs))

/-- `_build_default_policy_where_clause` from `sqlalchemy_sqlstore.py`:
a user with no attributes sees only public records; otherwise the
public disjunction is extended with the conjunction of one condition
per attribute category the user holds values for. -/
def build_default_policy_where_clause (user : Option User) : SqlExpr :=
  match user with
  | none => publicDisjunct
  | some u =>
    match u.attributes with
    | none => publicDisjunct
    | some attrs =>
      if attrs.isEmpty then publicDisjunct
      else
        match attrs.filterMap (fun p => categoryCondition p.1 p.2) with
        | [] => publicDisjunct
        | c :: cs => SqlExpr.orE publicDisjunct (joinAnd c cs)

/-- `_build_conservative_where_clause` from `sqlalchemy_sqlstore.py`:
with no authenticated user only public records pass; an authenticated
user (with or without attributes) passes everything, deferring all
filtering to the evaluator. -/
def build_conservative_where_clause (user : Option User) : SqlExpr :=
  match user with
  | none => publicDisjunct
  | some _ => SqlExpr.trueLit

/-- `_build_access_control_where_clause` from `sqlalchemy_sqlstore.py`:
the optimized default-policy clause for an empty policy or one equal by
value to `SQL_OPTIMIZED_POLICY`; the conservative clause otherwise. -/
def build_access_control_where_clause (policy : List AccessRule) (user : Option User) : SqlExpr :=
  if policy = [] ∨ policy = SQL_OPTIMIZED_POLICY then
    build_default_policy_where_clause user
  else
    build_conservative_where_clause user

/-- `SqlRecord` from `sqlalchemy_sqlstore.py`: adapts a row to a
`ProtectedResource`.  A truthy attributes dict yields a system owner
carrying the attributes; None or an empty dict yields the public owner
with null attributes. -/
def SqlRecord (record_id : String) (table_name : String)
    (access_attributes : Option (List (String × List String))) : ProtectedResource :=
  { resourceType := "sql_record::" ++ table_name
    identifier := record_id
    owner :=
      match access_attributes with
      | some l =>
        if l.isEmpty then { principal := "system_public", attributes := none }
        else { principal := "system", attributes := some l }
      | none => { principal := "system_public", attributes := none } }

/-- A fetched row of an access-controlled table: its id column and the
stored `access_attributes` value.  Rows are presented in the order the
backend returns them (the optional column-equality filter and the
order_by of the source `fetch_all` run inside the backend before the
access-control stages and are modelled by presenting `rows` already
filtered on those columns and sorted). -/
structure Row where
  id : String
  access_attributes : StoredAttr
deriving DecidableEq

/-- The `ProtectedResource` built for a row inside
`authorized_fetch_all`. -/
def sqlRecordOf (table : String) (row : Row) : ProtectedResource :=
  SqlRecord row.id table (pyValue row.access_attributes)

/-- The SQL stage of `fetch_all`: rows passing the WHERE fragment, cut
to the limit. -/
def fetch_all (rows : List Row) (whereSql : SqlExpr) (limit : Option Nat) : List Row :=
  let filtered := rows.filter (fun r => evalSql whereSql r.access_attributes)
  match limit with
  | some n => filtered.take n
  | none => filtered

/-- `authorized_fetch_all` from `sqlalchemy_sqlstore.py`: SQL pre-filter
with the access-control WHERE clause, then the evaluator re-check of
each fetched row with `is_action_allowed` for READ against the
`SqlRecord` adapter and the current user. -/
def authorized_fetch_all (table : String) (policy : List AccessRule)
    (user : Option User) (rows : List Row) (limit : Option Nat) : List Row :=
  let accessWhere := build_access_control_where_clause policy user
  let fetched := fetch_all rows accessWhere limit
  fetched.filter (fun row => is_action_allowed policy Action.read (sqlRecordOf table row) user)

/-- `authorized_fetch_one` from `sqlalchemy_sqlstore.py`:
`authorized_fetch_all` with limit 1; the first result or none. -/
def authorized_fetch_one (table : String) (policy : List AccessRule)
    (user : Option User) (rows : List Row) : Option Row :=
  (authorized_fetch_all table policy user rows (some 1)).head?

/-!
The generic (non-access-controlled) mutation operations, and
`authorized_insert`.
-/

/-- A generic row for the plain store operations: an association list
from column name to text value. -/
abbrev GRow := List (String × String)

/-- Column lookup in a generic row. -/
def lookupStr (r : GRow) (k : String) : Option String :=
  match r with
  | [] => none
  | p :: rest => if p.1 = k then some p.2 else lookupStr rest k

/-- A row matches a where mapping when every listed column equals the
listed value (the conjunction of equality predicates the source adds to
the statement). -/
def rowMatchesWhere (w : GRow) (r : GRow) : Bool :=
  w.all (fun p => lookupStr r p.1 = some p.2)

/-- Set one column of a generic row (replace in place, else append). -/
def setCol (r : GRow) (k v : String) : GRow :=
  match r with
  | [] => [(k, v)]
  | p :: rest => if p.1 = k then (k, v) :: rest else p :: setCol rest k v

/-- Apply an update data mapping to a row: each data column is written
over the row. -/
def applyData (data : GRow) (r : GRow) : GRow :=
  data.foldl (fun acc p => setCol acc p.1 p.2) r

/-- `update` from `sqlalchemy_sqlstore.py`: an empty where mapping
raises ValueError before any statement is built or executed (the error
value carries no table, so the contents are unchanged); otherwise every
matching row has the data columns written. -/
def update (table_rows : List GRow) (data : GRow) (whereC : GRow) :
    Except String (List GRow) :=
  if whereC.isEmpty then Except.error "where is required for update"
  else
    Except.ok (table_rows.map (fun r => if rowMatchesWhere whereC r then applyData data r else r))

/-- `delete` from `sqlalchemy_sqlstore.py`: an empty where mapping
raises ValueError before any statement is built or executed; otherwise
every matching row is removed. -/
def delete (table_rows : List GRow) (whereC : GRow) : Except String (List GRow) :=
  if whereC.isEmpty then Except.error "where is required for delete"
  else Except.ok (table_rows.filter (fun r => !(rowMatchesWhere whereC r)))

/-- A cell value of an insert data mapping: null, a text value, or an
attributes object (the only shapes the claims exercise). -/
inductive CellVal where
  | vnull
  | vstr (s : String)
  | vattrs (a : List (String × List String))
deriving DecidableEq

/-- An insert data mapping: column name to cell value, unique keys,
insertion ordered (a Python dict). -/
abbrev DataMap := List (String × CellVal)

/-- Python dict assignment: replace the value in place when the key is
present, append the pair otherwise. -/
def dictSet (d : DataMap) (k : String) (v : CellVal) : DataMap :=
  match d with
  | [] => [(k, v)]
  | p :: rest => if p.1 = k then (k, v) :: rest else p :: dictSet rest k v

/-- Python dict lookup. -/
def lookupCell (d : DataMap) (k : String) : Option CellVal :=
  match d with
  | [] => none
  | p :: rest => if p.1 = k then some p.2 else lookupCell rest k

/-- The attribute capture of `authorized_insert`: the current user's
attributes when the user exists and the attributes dict is truthy
(non-null and nonempty); null otherwise. -/
def capturedAttrs (user : Option User) : CellVal :=
  match user with
  | some u =>
    match u.attributes with
    | some a => if a.isEmpty then CellVal.vnull else CellVal.vattrs a
    | none => CellVal.vnull
  | none => CellVal.vnull

/-- The enhanced data mapping `authorized_insert` builds: a copy of the
caller data with `access_attributes` overwritten by the captured
attributes of the current user. -/
def enhanced_data (user : Option User) (data : DataMap) : DataMap :=
  dictSet data "access_attributes" (capturedAttrs user)

/-- `authorized_insert` from `sqlalchemy_sqlstore.py`: insert the
enhanced data as a new row. -/
def authorized_insert (user : Option User) (table_rows : List DataMap)
    (data : DataMap) : List DataMap :=
  table_rows ++ [enhanced_data user data]

/-!
The two route-guard policy evaluators.  Both bodies are in the source
snapshot (`access_control/decorator.py` and `server/access_control.py`)
and differ only in the null-user branch; the condition parsing and
matching they call is the spec-modelled `parse_condition` and
`conditionMatches` above (a parse error, caught as ValueError in the
source, is the `none` branch and denies).
-/

/-- The ad hoc dummy resource both route guards build around the user. -/
def dummy_resource (u : User) : ProtectedResource :=
  { resourceType := "api", identifier := "unknown", owner := u }

/-- The shared body of the two `_evaluate_policy` functions for an
authenticated user: parse the condition; only the two supported
condition kinds can grant; everything else (including a parse failure)
denies. -/
def evaluateSupportedCondition (condition : String) (u : User) : Bool :=
  match parse_condition condition with
  | some (Condition.userWithValueIn v a) =>
    conditionMatches (Condition.userWithValueIn v a) (dummy_resource u) u
  | some (Condition.userWithValueNotIn v a) =>
    conditionMatches (Condition.userWithValueNotIn v a) (dummy_resource u) u
  | _ => false

/-- `_evaluate_policy` from `access_control/decorator.py`: a null user
is denied outright. -/
def decorator_evaluate_policy (condition : String) (user : Option User) : Bool :=
  match user with
  | none => false
  | some u => evaluateSupportedCondition condition u

/-- `_evaluate_policy` from `server/access_control.py`: a null user is
allowed (the source comment reads: if no user, assume auth is not
enabled). -/
def middleware_evaluate_policy (condition : String) (user : Option User) : Bool :=
  match user with
  | none => true
  | some u => evaluateSupportedCondition condition u

/-- A condition string that `parse_condition` cannot parse or that
parses to a kind other than the two forms the route guards support. -/
def unsupported_condition (s : String) : Bool :=
  match parse_condition s with
  | some (Condition.userWithValueIn _ _) => false
  | some (Condition.userWithValueNotIn _ _) => false
  | _ => true

/-!
Helper lemmas shared by the claim theorems.
-/

/-- The public-row disjunction accepts the three public storage
representations. -/
lemma evalSql_public_of (s : StoredAttr)
    (h : s = StoredAttr.sqlNull ∨ s = StoredAttr.jsonNull ∨ s = StoredAttr.obj []) :
    evalSql publicDisjunct s = true := by
  rcases h with rfl | rfl | rfl <;> decide

/-- A disjunction holds when its left disjunct holds. -/
lemma evalSql_orE_left (a b : SqlExpr) (s : StoredAttr)
    (h : evalSql a s = true) : evalSql (SqlExpr.orE a b) s = true := by
  simp [evalSql, h]

/-- Every shape of the default-policy WHERE clause starts with the
public-row disjunction, so a value passing the disjunction passes the
clause. -/
lemma default_clause_of_public (u : Option User) (s : StoredAttr)
    (h : evalSql publicDisjunct s = true) :
    evalSql (build_default_policy_where_clause u) s = true := by
  rcases u with _ | ⟨p, _ | attrs⟩
  · exact h
  · exact h
  · unfold build_default_policy_where_clause
    simp only
    split
    · exact h
    · split
      · exact h
      · exact evalSql_orE_left _ _ _ h

/-- The row adapter produces a public owner exactly for the three
public storage representations. -/
lemma sqlRecord_public_iff (t : String) (row : Row) :
    isPublicOwner (sqlRecordOf t row).owner = true ↔
      (row.access_attributes = StoredAttr.sqlNull ∨
       row.access_attributes = StoredAttr.jsonNull ∨
       row.access_attributes = StoredAttr.obj []) := by
  rcases row with ⟨rid, _ | _ | (_ | ⟨a, l⟩)⟩ <;>
    simp [sqlRecordOf, SqlRecord, pyValue, isPublicOwner]

/-- The evaluator permits any action on a resource with a public owner. -/
lemma allowed_of_public (policy : List AccessRule) (action : Action)
    (res : ProtectedResource) (user : Option User)
    (h : isPublicOwner res.owner = true) :
    is_action_allowed policy action res user = true := by
  simp [is_action_allowed, h]

/-- With a null user the evaluator permits only resources with a public
owner. -/
lemma public_of_allowed_none (policy : List AccessRule) (action : Action)
    (res : ProtectedResource)
    (h : is_action_allowed policy action res none = true) :
    isPublicOwner res.owner = true := by
  by_cases hp : isPublicOwner res.owner = true
  · exact hp
  · simp [is_action_allowed, hp] at h

/-- Looking up a key just set by dict assignment yields the set value. -/
lemma lookupCell_dictSet (d : DataMap) (k : String) (v : CellVal) :
    lookupCell (dictSet d k v) k = some v := by
  induction d with
  | nil => simp [dictSet, lookupCell]
  | cons p rest ih =>
    by_cases h : p.1 = k
    · simp [dictSet, lookupCell, h]
    · simp [dictSet, lookupCell, h, ih]

/-- Dict assignment overwrites a previous assignment to the same key. -/
lemma dictSet_dictSet (d : DataMap) (k : String) (w v : CellVal) :
    dictSet (dictSet d k w) k v = dictSet d k v := by
  induction d with
  | nil => simp [dictSet]
  | cons p rest ih =>
    by_cases h : p.1 = k
    · simp [dictSet, h]
    · simp [dictSet, h, ih]

/-- An unsupported or unparseable condition string denies for any
authenticated user in the shared route-guard body. -/
lemma evaluateSupported_false_of_unsupported (s : String) (u : User)
    (h : unsupported_condition s = true) :
    evaluateSupportedCondition s u = false := by
  unfold unsupported_condition at h
  unfold evaluateSupportedCondition
  cases hp : parse_condition s with
  | none => rfl
  | some c => cases c <;> rw [hp] at h <;> simp_all

/-!
Claim theorems.
-/

/-- A user whose attributes include a category outside the four the
default policy checks. -/
def extraCategoryUser : User :=
  { principal := "alice", attributes := some [("roles", ["admin"]), ("region", ["eu"])] }

/-- A row whose stored attributes carry the same extra category with a
different value. -/
def extraCategoryRow : Row :=
  { id := "1", access_attributes := StoredAttr.obj [("roles", ["admin"]), ("region", ["us"])] }

/-- Claim C1: the claimed equivalence fails.  For the default policy
and the concrete user above, the evaluator permits the row (the default
policy constrains only roles, teams, projects and namespaces, and the
row matches on roles while the other three categories are absent), yet
the SQL WHERE clause built by `_build_default_policy_where_clause` ANDs
a condition for every attribute category the user holds — including
`region`, which the row fails — so `authorized_fetch_all` drops an
evaluator-permitted row. -/
theorem sql_prefilter_excludes_evaluator_permitted_row :
    default_policy = SQL_OPTIMIZED_POLICY ∧
    is_action_allowed SQL_OPTIMIZED_POLICY Action.read
      (sqlRecordOf "resources" extraCategoryRow) (some extraCategoryUser) = true ∧
    evalSql (build_default_policy_where_clause (some extraCategoryUser))
      extraCategoryRow.access_attributes = false ∧
    authorized_fetch_all "resources" SQL_OPTIMIZED_POLICY (some extraCategoryUser)
      [extraCategoryRow] none = [] := by
  decide

/-- Claim C2: a row stored with SQL NULL, JSON null, or the empty
object passes both stages of `authorized_fetch_all` under the default
policy for every user including the null user, and the `SqlRecord`
adapter gives it an owner with null attributes. -/
theorem public_rows_pass_both_stages (t : String) (user : Option User) (row : Row)
    (h : row.access_attributes = StoredAttr.sqlNull ∨
         row.access_attributes = StoredAttr.jsonNull ∨
         row.access_attributes = StoredAttr.obj []) :
    authorized_fetch_all t SQL_OPTIMIZED_POLICY user [row] none = [row] ∧
    (sqlRecordOf t row).owner.attributes = none := by
  have hpub : evalSql publicDisjunct row.access_attributes = true :=
    evalSql_public_of _ h
  have hsql : evalSql (build_access_control_where_clause SQL_OPTIMIZED_POLICY user)
      row.access_attributes = true := by
    unfold build_access_control_where_clause
    rw [if_pos (Or.inr rfl)]
    exact default_clause_of_public _ _ hpub
  have howner : (sqlRecordOf t row).owner.attributes = none := by
    rcases row with ⟨rid, sa⟩
    simp only at h
    rcases h with rfl | rfl | rfl <;> simp [sqlRecordOf, SqlRecord, pyValue]
  have hpo : isPublicOwner (sqlRecordOf t row).owner = true := by
    simp [isPublicOwner, howner]
  have hallow : is_action_allowed SQL_OPTIMIZED_POLICY Action.read
      (sqlRecordOf t row) user = true :=
    allowed_of_public _ _ _ _ hpo
  refine ⟨?_, howner⟩
  simp [authorized_fetch_all, fetch_all, hsql, hallow]

/-- Witness for C2 at a concrete input: the null user and a row stored
with SQL NULL. -/
theorem public_rows_pass_both_stages_witness :
    authorized_fetch_all "t" SQL_OPTIMIZED_POLICY none
      [{ id := "7", access_attributes := StoredAttr.sqlNull }] none =
      [{ id := "7", access_attributes := StoredAttr.sqlNull }] ∧
    (sqlRecordOf "t" { id := "7", access_attributes := StoredAttr.sqlNull }).owner.attributes = none :=
  public_rows_pass_both_stages "t" none _ (Or.inl rfl)

/-- Claim C3 counterexample: the claim quantifies over every user
including the null user, but the middleware evaluator returns true for
a null user even on an unparseable condition string. -/
theorem middleware_allows_unparseable_for_null_user :
    unsupported_condition "garbage" = true ∧
    middleware_evaluate_policy "garbage" none = true := by
  decide

/-- Claim C3 (amended): an unparseable or unsupported condition string
is denied by the decorator evaluator for every user including the null
user, and by the middleware evaluator for every authenticated user; a
null user in the middleware is allowed regardless of the string. -/
theorem unsupported_condition_denies_amended (s : String) (uo : Option User) (u : User)
    (h : unsupported_condition s = true) :
    decorator_evaluate_policy s uo = false ∧
    middleware_evaluate_policy s (some u) = false := by
  constructor
  · rcases uo with _ | u'
    · rfl
    · exact evaluateSupported_false_of_unsupported s u' h
  · exact evaluateSupported_false_of_unsupported s u h

/-- Witness for the amended C3 at a concrete input: an owners-form
condition string, which parses to an unsupported kind. -/
theorem unsupported_condition_denies_amended_witness :
    unsupported_condition "user in owners roles" = true ∧
    decorator_evaluate_policy "user in owners roles" none = false ∧
    middleware_evaluate_policy "user in owners roles"
      (some { principal := "bob", attributes := none }) = false := by
  refine ⟨by decide, ?_⟩
  have h := unsupported_condition_denies_amended "user in owners roles" none
    { principal := "bob", attributes := none } (by decide)
  exact h

/-- Claim C4 counterexample: for a null user the middleware evaluator
returns true (the source treats a missing user as auth being disabled),
so the route guard does not fail closed on that path. -/
theorem middleware_null_user_allows :
    middleware_evaluate_policy "user with admin in roles" none = true := by
  decide

/-- Claim C4 (amended): for every condition string a null user is
denied by the decorator route guard, while the middleware route guard
returns true for a null user. -/
theorem null_user_route_guard_amended (s : String) :
    decorator_evaluate_policy s none = false ∧
    middleware_evaluate_policy s none = true :=
  ⟨rfl, rfl⟩

/-- A sample authenticated user with attributes, at which the optimized
and conservative WHERE clauses differ. -/
def attrUser : User := { principal := "carol", attributes := some [("roles", ["admin"])] }

/-- Claim C5 counterexample: the empty policy is not equal by value to
`SQL_OPTIMIZED_POLICY`, yet `_build_access_control_where_clause` gives
it the optimized default-policy clause (which differs from the
conservative clause at an authenticated user with attributes). -/
theorem empty_policy_gets_optimized_clause :
    build_access_control_where_clause [] (some attrUser) =
      build_default_policy_where_clause (some attrUser) ∧
    ([] : List AccessRule) ≠ SQL_OPTIMIZED_POLICY ∧
    build_default_policy_where_clause (some attrUser) ≠
      build_conservative_where_clause (some attrUser) := by
  decide

/-- Claim C5 (amended): `_build_access_control_where_clause` returns
the optimized default-policy clause when the policy is empty or equal
by value to `SQL_OPTIMIZED_POLICY` (the source treats an empty policy
as the default policy), and the conservative clause for every other
policy value. -/
theorem where_clause_selection_amended (policy : List AccessRule) (user : Option User) :
    (policy = [] ∨ policy = SQL_OPTIMIZED_POLICY →
      build_access_control_where_clause policy user =
        build_default_policy_where_clause user) ∧
    (policy ≠ [] → policy ≠ SQL_OPTIMIZED_POLICY →
      build_access_control_where_clause policy user =
        build_conservative_where_clause user) := by
  constructor
  · intro h
    unfold build_access_control_where_clause
    rw [if_pos h]
  · intro h1 h2
    unfold build_access_control_where_clause
    rw [if_neg]
    rintro (h | h)
    · exact h1 h
    · exact h2 h

/-- Witness for the amended C5 at concrete inputs: the hardcoded
default policy takes the optimized branch; a one-rule non-default
policy takes the conservative branch. -/
theorem where_clause_selection_amended_witness :
    build_access_control_where_clause SQL_OPTIMIZED_POLICY (some attrUser) =
      build_default_policy_where_clause (some attrUser) ∧
    build_access_control_where_clause
      [{ permit := { actions := [Action.read] }, whenConds := [] }] (some attrUser) =
      build_conservative_where_clause (some attrUser) :=
  ⟨(where_clause_selection_amended SQL_OPTIMIZED_POLICY (some attrUser)).1 (Or.inr rfl),
   (where_clause_selection_amended
      [{ permit := { actions := [Action.read] }, whenConds := [] }] (some attrUser)).2
     (by decide) (by decide)⟩

/-- Claim C6: for a policy other than the default one, any row the
evaluator permits satisfies the conservative WHERE fragment, whose
shape is the public-row disjunction for a null user and the always-true
fragment for any authenticated user. -/
theorem conservative_clause_never_excludes_permitted (policy : List AccessRule)
    (user : Option User) (t : String) (row : Row)
    (_hne : policy ≠ SQL_OPTIMIZED_POLICY)
    (hallow : is_action_allowed policy Action.read (sqlRecordOf t row) user = true) :
    evalSql (build_conservative_where_clause user) row.access_attributes = true ∧
    build_conservative_where_clause none = publicDisjunct ∧
    (∀ u : User, build_conservative_where_clause (some u) = SqlExpr.trueLit) := by
  refine ⟨?_, rfl, fun _ => rfl⟩
  rcases user with _ | u
  · have hpo := public_of_allowed_none policy Action.read (sqlRecordOf t row) hallow
    exact evalSql_public_of _ ((sqlRecord_public_iff t row).mp hpo)
  · rfl

/-- Witness for C6 at a concrete input: a non-default (empty) policy, a
null user and a public row. -/
theorem conservative_clause_never_excludes_permitted_witness :
    evalSql (build_conservative_where_clause none) StoredAttr.sqlNull = true :=
  (conservative_clause_never_excludes_permitted [] none "t"
    { id := "1", access_attributes := StoredAttr.sqlNull }
    (by decide) (by decide)).1

/-- Claim C7: `update` and `delete` with an empty where mapping fail
with the ValueError message before any statement executes (the error
value carries no table state, so contents are unchanged), and with any
non-empty where mapping the guard does not trigger. -/
theorem update_delete_require_nonempty_where (table_rows : List GRow) (data w : GRow) :
    (w = [] → update table_rows data w = Except.error "where is required for update" ∧
      delete table_rows w = Except.error "where is required for delete") ∧
    (w ≠ [] →
      update table_rows data w =
        Except.ok (table_rows.map
          (fun r => if rowMatchesWhere w r then applyData data r else r)) ∧
      delete table_rows w =
        Except.ok (table_rows.filter (fun r => !rowMatchesWhere w r))) := by
  constructor
  · rintro rfl
    exact ⟨rfl, rfl⟩
  · intro h
    have hne : w.isEmpty = false := by
      cases w
      · exact absurd rfl h
      · rfl
    constructor
    · simp [update, hne]
    · simp [delete, hne]

/-- Witness for C7 at concrete inputs: an empty where mapping errors,
a singleton where mapping passes the guard. -/
theorem update_delete_require_nonempty_where_witness :
    update ([] : List GRow) [] [] = Except.error "where is required for update" ∧
    delete ([] : List GRow) [("id", "1")] = Except.ok ([] : List GRow) :=
  ⟨((update_delete_require_nonempty_where [] [] []).1 rfl).1,
   ((update_delete_require_nonempty_where [] [] [("id", "1")]).2 (by decide)).2⟩

/-- Claim C8: `authorized_insert` appends exactly the enhanced row; the
stored `access_attributes` column is the current user's attributes when
the user exists with non-empty attributes and null otherwise, and a
null-stored row is public: it passes the default-policy WHERE clause
and the evaluator for every user. -/
theorem authorized_insert_captures_user_attributes (user : Option User)
    (table_rows : List DataMap) (data : DataMap) (tname rid : String) :
    authorized_insert user table_rows data = table_rows ++ [enhanced_data user data] ∧
    (∀ u a, user = some u → u.attributes = some a → a ≠ [] →
      lookupCell (enhanced_data user data) "access_attributes" = some (CellVal.vattrs a)) ∧
    ((user = none ∨ ∃ u, user = some u ∧ (u.attributes = none ∨ u.attributes = some [])) →
      lookupCell (enhanced_data user data) "access_attributes" = some CellVal.vnull) ∧
    (∀ (viewer : Option User) (s : StoredAttr),
      s = StoredAttr.sqlNull ∨ s = StoredAttr.jsonNull →
      evalSql (build_default_policy_where_clause viewer) s = true ∧
      is_action_allowed default_policy Action.read
        (SqlRecord rid tname (pyValue s)) viewer = true) := by
  refine ⟨rfl, ?_, ?_, ?_⟩
  · rintro u a rfl ha hne
    have hae : a.isEmpty = false := by
      cases a
      · exact absurd rfl hne
      · rfl
    simp [enhanced_data, capturedAttrs, ha, hae, lookupCell_dictSet]
  · rintro (rfl | ⟨u, rfl, hu | hu⟩)
    · simp [enhanced_data, capturedAttrs, lookupCell_dictSet]
    · simp [enhanced_data, capturedAttrs, hu, lookupCell_dictSet]
    · simp [enhanced_data, capturedAttrs, hu, lookupCell_dictSet]
  · intro viewer s hs
    have hs3 : s = StoredAttr.sqlNull ∨ s = StoredAttr.jsonNull ∨ s = StoredAttr.obj [] := by
      rcases hs with rfl | rfl
      · exact Or.inl rfl
      · exact Or.inr (Or.inl rfl)
    refine ⟨default_clause_of_public _ _ (evalSql_public_of _ hs3), ?_⟩
    apply allowed_of_public
    rcases hs with rfl | rfl <;> simp [SqlRecord, pyValue, isPublicOwner]

/-- Witness for C8 at a concrete input: inserting with no authenticated
user stores null attributes and the stored row is visible to the null
user. -/
theorem authorized_insert_captures_user_attributes_witness :
    lookupCell (enhanced_data none [("name", CellVal.vstr "x")]) "access_attributes" =
      some CellVal.vnull ∧
    evalSql (build_default_policy_where_clause none) StoredAttr.sqlNull = true := by
  have h := authorized_insert_captures_user_attributes none [] [("name", CellVal.vstr "x")] "t" "r"
  exact ⟨h.2.2.1 (Or.inl rfl), (h.2.2.2 none StoredAttr.sqlNull (Or.inl rfl)).1⟩

/-- Claim C9: the rows `authorized_fetch_all` returns are a subsequence
of the SQL pre-filter output (the evaluator post-filter shrinks but
never reorders or adds), and `authorized_fetch_one` is the head of the
limit-1 result or none. -/
theorem authorized_fetch_preserves_prefilter_order (t : String) (policy : List AccessRule)
    (user : Option User) (rows : List Row) (limit : Option Nat) :
    List.Sublist (authorized_fetch_all t policy user rows limit)
      (fetch_all rows (build_access_control_where_clause policy user) limit) ∧
    authorized_fetch_one t policy user rows =
      (authorized_fetch_all t policy user rows (some 1)).head? :=
  ⟨List.filter_sublist _, rfl⟩

/-- Claim C10: two data mappings differing only in the value supplied
for the `access_attributes` key produce identical inserted rows: the
stored attributes come from the user alone and cannot be forged through
the data argument. -/
theorem authorized_insert_ignores_supplied_access_attributes (user : Option User)
    (table_rows : List DataMap) (d0 d1 d2 : DataMap) (v1 v2 : CellVal)
    (h1 : d1 = dictSet d0 "access_attributes" v1)
    (h2 : d2 = dictSet d0 "access_attributes" v2) :
    authorized_insert user table_rows d1 = authorized_insert user table_rows d2 := by
  subst h1
  subst h2
  unfold authorized_insert enhanced_data
  rw [dictSet_dictSet, dictSet_dictSet]

/-- Witness for C10 at concrete inputs: a forged attributes object and
a null in the data argument yield the same inserted row. -/
theorem authorized_insert_ignores_supplied_access_attributes_witness :
    authorized_insert none []
      [("name", CellVal.vstr "x"), ("access_attributes", CellVal.vattrs [("roles", ["admin"])])] =
    authorized_insert none []
      [("name", CellVal.vstr "x"), ("access_attributes", CellVal.vnull)] :=
  authorized_insert_ignores_supplied_access_attributes none []
    [("name", CellVal.vstr "x"), ("access_attributes", CellVal.vstr "seed")]
    [("name", CellVal.vstr "x"), ("access_attributes", CellVal.vattrs [("roles", ["admin"])])]
    [("name", CellVal.vstr "x"), ("access_attributes", CellVal.vnull)]
    (CellVal.vattrs [("roles", ["admin"])]) CellVal.vnull
    (by decide) (by decide)

end LlamaStack
